import Mathlib

/-
  Shallow embedding of the signd runtime (src/signd/runtime.rs) of lnp-node:
  the signing-oracle microservice.  External crate capabilities (secp256k1
  signing, BIP32 child derivation, strict decoding, the ESB transport) are
  modelled as explicit function parameters collected in the Caps structure;
  everything in the runtime module itself is translated directly.
-/

namespace LnpSignd

/-- Interpretation of a byte list as a big-endian unsigned integer; on a
four-element list of bytes this is u32 from be bytes. -/
def u32_from_be_bytes (l : List Nat) : Nat :=
  l.foldl (fun acc b => acc * 256 + b) 0

/-- Slice32: a 32-byte array (the wrapper type inside ChannelId /
the DeriveKeyset payload). -/
structure Slice32 where
  inner : List Nat
deriving DecidableEq

/-- Well-formedness of a Slice32: exactly 32 bytes, each below 256. -/
def Slice32.wellFormed (s : Slice32) : Prop :=
  s.inner.length = 32 ∧ ∀ b ∈ s.inner, b < 256

/-- BIP32 child number: a normal or hardened index (bitcoin crate type). -/
inductive ChildNumber where
  | normal (index : Nat)
  | hardened (index : Nat)
deriving DecidableEq

/-- ChildNumber from hardened idx of the bitcoin crate: succeeds exactly
when the index fits in the lower 31 bits (for a u32 argument the crate
checks that bit 31 is clear, equivalent to index < 2 ^ 31). -/
def ChildNumber.from_hardened_idx (index : Nat) : Option ChildNumber :=
  if index < 2 ^ 31 then some (ChildNumber.hardened index) else none

/-- Extended private key (bitcoin crate type), abstracted to its bytes. -/
structure ExtendedPrivKey where
  bytes : List Nat
deriving DecidableEq

/-- Error taxonomy of the runtime.  The wrong esb msg constructor carries
the bus and a rendering of the offending message, as the source builds it
from the bus identifier and the message display form; the remaining
constructors stand for I/O, decode, derivation, signing and transport
errors surfaced by the external capabilities. -/
inductive Error where
  | wrong_esb_msg (bus_id : Nat) (msg : String)
  | io (code : Nat)
  | decode (code : Nat)
  | derive (code : Nat)
  | sign (code : Nat)
  | esb (code : Nat)
deriving DecidableEq

/-- Service buses of the ESB.  The runtime only handles Ctl; the remaining
buses of the node are collapsed into an indexed constructor. -/
inductive ServiceBus where
  | Ctl
  | otherBus (tag : Nat)
deriving DecidableEq

/-- Numeric identifier of a bus, used inside wrong esb msg errors. -/
def ServiceBus.busId : ServiceBus → Nat
  | .Ctl => 0
  | .otherBus tag => tag + 1

/-- Service identities on the bus.  Signer is the identity of this
runtime; Channel carries a channel id; the other services of the node are
collapsed into an indexed constructor. -/
inductive ServiceId where
  | Signer
  | Channel (channel_id : Slice32)
  | otherService (tag : Nat)
deriving DecidableEq

/-- PSBT, abstracted to its bytes. -/
structure Psbt where
  bytes : List Nat
deriving DecidableEq

/-- Channel keyset produced by LocalKeyset with: the source account
fingerprint, the full derivation path, the derived channel extended
private key, and the optional funding key (always absent here). -/
structure LocalKeyset where
  source_fingerprint : Nat
  source_path : List ChildNumber
  channel_xpriv : ExtendedPrivKey
  funding_key : Option Nat
deriving DecidableEq

/-- LocalKeyset constructor mirroring the external LocalKeyset with
call: it packages the fingerprint, the path, the derived key and the
funding key placeholder. -/
def LocalKeyset.with (fp : Nat) (path : List ChildNumber)
    (xpriv : ExtendedPrivKey) (funding : Option Nat) : LocalKeyset :=
  { source_fingerprint := fp, source_path := path,
    channel_xpriv := xpriv, funding_key := funding }

/-- Control-bus messages handled or produced by the runtime.  Sign and
DeriveKeyset are the requests; Signed and Keyset the responses; ErrorEcho
is the error-wrapped echo of an original request produced by CtlMsg
with error (modelled from the spec: the bus module is outside src);
otherCtl stands for every remaining control-message kind of the node. -/
inductive CtlMsg where
  | Sign (psbt : Psbt)
  | Signed (psbt : Psbt)
  | DeriveKeyset (channel_id : Slice32)
  | Keyset (dest : ServiceId) (keyset : LocalKeyset)
  | ErrorEcho (destination : ServiceId) (request : CtlMsg) (err : Error)
  | otherCtl (tag : Nat)
deriving DecidableEq

/-- Display rendering of a control message kind, used when a wrong esb
msg error is built from it. -/
def CtlMsg.describe : CtlMsg → String
  | .Sign _ => "Sign"
  | .Signed _ => "Signed"
  | .DeriveKeyset _ => "DeriveKeyset"
  | .Keyset _ _ => "Keyset"
  | .ErrorEcho _ _ _ => "Error"
  | .otherCtl tag => "Other" ++ toString tag

/-- CtlMsg with error (modelled from the spec: the bus module is outside
src): wraps an error around the original request, addressed back to its
source. -/
def CtlMsg.with_error (destination : ServiceId) (request : CtlMsg)
    (err : Error) : CtlMsg :=
  CtlMsg.ErrorEcho destination request err

/-- Bus messages: the runtime handles the Ctl wrapper; the remaining
wrappers of the node are collapsed into an indexed constructor. -/
inductive BusMsg where
  | Ctl (msg : CtlMsg)
  | otherMsg (tag : Nat)
deriving DecidableEq

/-- Display rendering of a bus message, used when a wrong esb msg error
is built from it. -/
def BusMsg.describe : BusMsg → String
  | .Ctl m => m.describe
  | .otherMsg tag => "OtherBusMsg" ++ toString tag

/-- Error wrong esb msg of the runtime crate: an unsupported-message
error naming the bus and the message. -/
def Error.wrongEsbMsgCtl (bus : ServiceBus) (m : CtlMsg) : Error :=
  Error.wrong_esb_msg bus.busId m.describe

/-- Error wrong esb msg applied to a whole bus message. -/
def Error.wrongEsbMsgBus (bus : ServiceBus) (m : BusMsg) : Error :=
  Error.wrong_esb_msg bus.busId m.describe

/-- A message sent over the ESB: bus, sender, destination and payload. -/
structure SentMsg where
  bus : ServiceBus
  sender : ServiceId
  dest : ServiceId
  msg : BusMsg
deriving DecidableEq

/-- A signing account of the memory key provider: master id, base
derivation path, account extended private key, and the account
fingerprint computed at construction by the wallet crate. -/
structure MemorySigningAccount where
  master_id : List Nat
  derivation : List ChildNumber
  xpriv : ExtendedPrivKey
  fingerprint : Nat
deriving DecidableEq

/-- Accessor account xpriv of MemorySigningAccount. -/
def MemorySigningAccount.account_xpriv (a : MemorySigningAccount) :
    ExtendedPrivKey := a.xpriv

/-- Accessor account fingerprint of MemorySigningAccount. -/
def MemorySigningAccount.account_fingerprint (a : MemorySigningAccount) :
    Nat := a.fingerprint

/-- The memory key provider: its list of signing accounts together with
the musig flag passed at construction. -/
structure MemoryKeyProvider where
  accounts : List MemorySigningAccount
  use_musig : Bool
deriving DecidableEq

/-- Chain parameters, reduced to the testnet flag consulted by the
runtime. -/
structure ChainParams where
  is_testnet : Bool
deriving DecidableEq

/-- A chain, exposing its parameters. -/
structure Chain where
  params : ChainParams
deriving DecidableEq

/-- Accessor chain params of Chain. -/
def Chain.chain_params (c : Chain) : ChainParams := c.params

/-- External capabilities used by the runtime, modelled as explicit
functions: the key file read, the three strict decoders, the fingerprint
computation of MemorySigningAccount with, PSBT signing, BIP32 private
derivation, txid computation and the ESB transport send (none means the
message was delivered). -/
structure Caps where
  open_file : Except Error (List Nat)
  decode_xpub_id : List Nat → Except Error (List Nat × List Nat)
  decode_derivation_path :
    List Nat → Except Error (List ChildNumber × List Nat)
  decode_xpriv : List Nat → Except Error (ExtendedPrivKey × List Nat)
  fingerprint_of : ExtendedPrivKey → Nat
  sign_all : Psbt → MemoryKeyProvider → Except Error (Psbt × Nat)
  derive_priv :
    ExtendedPrivKey → List ChildNumber → Except Error ExtendedPrivKey
  to_txid : Psbt → Nat
  send : SentMsg → Option Error

/-- MemorySigningAccount with: binds the decoded record to the context,
computing the account fingerprint. -/
def MemorySigningAccount.with (caps : Caps) (master_id : List Nat)
    (derivation : List ChildNumber) (account_xpriv : ExtendedPrivKey) :
    MemorySigningAccount :=
  { master_id := master_id, derivation := derivation,
    xpriv := account_xpriv, fingerprint := caps.fingerprint_of account_xpriv }

/-- MemoryKeyProvider with: an empty provider carrying the context and
the musig flag. -/
def MemoryKeyProvider.withFlag (use_musig : Bool) : MemoryKeyProvider :=
  { accounts := [], use_musig := use_musig }

/-- MemoryKeyProvider add account. -/
def MemoryKeyProvider.add_account (p : MemoryKeyProvider)
    (a : MemorySigningAccount) : MemoryKeyProvider :=
  { p with accounts := p.accounts ++ [a] }

/-- The runtime state: the configured chain and the key provider. -/
structure Runtime where
  chain : Chain
  provider : MemoryKeyProvider
deriving DecidableEq

/-- Runtime provider: opens the master key file and strict-decodes, in
order, the xpub identifier, the derivation path and the account extended
private key; builds the signing account and registers it in a fresh
provider.  Any failing step aborts the whole construction with that
error. -/
def Runtime.loadProvider (caps : Caps) : Except Error MemoryKeyProvider := do
  let file ← caps.open_file
  let (master_id, file) ← caps.decode_xpub_id file
  let (derivation, file) ← caps.decode_derivation_path file
  let (account_xpriv, _file) ← caps.decode_xpriv file
  let signing_account :=
    MemorySigningAccount.with caps master_id derivation account_xpriv
  let provider := MemoryKeyProvider.withFlag true
  pure (provider.add_account signing_account)

/-- Runtime with: builds the runtime from the configured chain and the
provider; a provider failure aborts construction. -/
def Runtime.with (caps : Caps) (chain : Chain) : Except Error Runtime := do
  let provider ← Runtime.loadProvider caps
  pure { chain := chain, provider := provider }

/-- The identity the runtime advertises on the bus. -/
def Runtime.identity (_ : Runtime) : ServiceId := ServiceId.Signer

/-- Outcome of one handling step: the resulting runtime state, the list
of messages delivered to the bus so far, and the log of (txid,
signature count) reports; err additionally carries the error returned to
the caller, and panicked marks a hit of the expect panic in path
construction. -/
inductive Outcome where
  | ok (rt : Runtime) (ep : List SentMsg) (logs : List (Nat × Nat))
  | err (e : Error) (rt : Runtime) (ep : List SentMsg) (logs : List (Nat × Nat))
  | panicked
deriving DecidableEq

/-- The runtime state after an outcome, when one exists. -/
def Outcome.runtimeOf : Outcome → Option Runtime
  | .ok rt _ _ => some rt
  | .err _ rt _ _ => some rt
  | .panicked => none

/-- The delivered-message list after an outcome. -/
def Outcome.sentOf : Outcome → List SentMsg
  | .ok _ ep _ => ep
  | .err _ _ ep _ => ep
  | .panicked => []

/-- The error returned by an outcome, when any. -/
def Outcome.errorOf : Outcome → Option Error
  | .ok _ _ _ => none
  | .err e _ _ _ => some e
  | .panicked => none

/-- The messages newly delivered by a handling step, relative to the
endpoint state it started from. -/
def Outcome.newMsgs (o : Outcome) (ep : List SentMsg) : List SentMsg :=
  o.sentOf.drop ep.length

/-- The keysets contained in the newly delivered messages. -/
def Outcome.keysets (o : Outcome) (ep : List SentMsg) : List LocalKeyset :=
  (o.newMsgs ep).filterMap fun m =>
    match m.msg with
    | .Ctl (.Keyset _ ks) => some ks
    | _ => none

/-- The newly delivered messages that are responses or derived work: a
Signed response or a Keyset response. -/
def Outcome.responses (o : Outcome) (ep : List SentMsg) : List SentMsg :=
  (o.newMsgs ep).filter fun m =>
    match m.msg with
    | .Ctl (.Signed _) => true
    | .Ctl (.Keyset _ _) => true
    | _ => false

/-- Endpoints send to: delivery through the transport capability; on
success the message is appended to the delivered list, otherwise the
transport error is returned. -/
def send_to (caps : Caps) (ep : List SentMsg) (bus : ServiceBus)
    (sender dest : ServiceId) (msg : BusMsg) :
    Except Error (List SentMsg) :=
  match caps.send { bus := bus, sender := sender, dest := dest, msg := msg } with
  | none => Except.ok (ep ++ [{ bus := bus, sender := sender, dest := dest, msg := msg }])
  | some e => Except.error e

/-- The channel index of a DeriveKeyset request: the first four bytes of
the channel id as a big-endian 32-bit integer, masked with 0x7FFFFFFF. -/
def Runtime.channel_index (slice32 : Slice32) : Nat :=
  u32_from_be_bytes (slice32.inner.take 4) &&& 0x7FFFFFFF

/-- The chain index: the testnet flag of the configured chain as an
integer. -/
def Runtime.chain_index (rt : Runtime) : Nat :=
  if rt.chain.chain_params.is_testnet then 1 else 0

/-- The derivation path built for a channel: chain index, 1, 0, channel
index, each converted by ChildNumber from hardened idx; none marks the
expect panic of the source when a component exceeds the hardened range. -/
def Runtime.derive_path (rt : Runtime) (slice32 : Slice32) :
    Option (List ChildNumber) :=
  [rt.chain_index, 1, 0, Runtime.channel_index slice32].mapM
    ChildNumber.from_hardened_idx

/-- Runtime handle ctl: the control-plane dispatch of the runtime.
Sign runs the signing coordinator, logs the txid and signature count and
sends Signed back to the source; DeriveKeyset derives the channel keyset
from the first account, if any, and sends it as a Keyset response; every
other message kind is rejected with a wrong esb msg error. -/
def Runtime.handle_ctl (caps : Caps) (rt : Runtime) (ep : List SentMsg)
    (logs : List (Nat × Nat)) (source : ServiceId) (message : CtlMsg) :
    Outcome :=
  match message with
  | .Sign psbt =>
    match caps.sign_all psbt rt.provider with
    | .error e => .err e rt ep logs
    | .ok (psbt, sig_count) =>
      let txid := caps.to_txid psbt
      let logs := logs ++ [(txid, sig_count)]
      match send_to caps ep ServiceBus.Ctl ServiceId.Signer source
          (BusMsg.Ctl (CtlMsg.Signed psbt)) with
      | .error e => .err e rt ep logs
      | .ok ep => .ok rt ep logs
  | .DeriveKeyset slice32 =>
    match rt.provider.accounts.head? with
    | some account =>
      let account_xpriv := account.account_xpriv
      match rt.derive_path slice32 with
      | none => .panicked
      | some path =>
        match caps.derive_priv account_xpriv path with
        | .error e => .err e rt ep logs
        | .ok channel_xpriv =>
          let keyset := LocalKeyset.with account.account_fingerprint path
            channel_xpriv none
          match send_to caps ep ServiceBus.Ctl rt.identity source
              (BusMsg.Ctl (CtlMsg.Keyset (ServiceId.Channel slice32) keyset)) with
          | .error e => .err e rt ep logs
          | .ok ep => .ok rt ep logs
    | none => .ok rt ep logs
  | wrong_msg =>
    .err (Error.wrongEsbMsgCtl ServiceBus.Ctl wrong_msg) rt ep logs

/-- Runtime handle: the esb Handler entry point.  A Ctl-bus Ctl message
is dispatched to handle ctl; on a returned error the error-wrapped echo
of the original request is sent back to the source (a failure of that
send takes precedence as the returned error) and the error is returned;
any other bus/message pairing is rejected with a wrong esb msg error. -/
def Runtime.handle (caps : Caps) (rt : Runtime) (ep : List SentMsg)
    (logs : List (Nat × Nat)) (bus : ServiceBus) (source : ServiceId)
    (message : BusMsg) : Outcome :=
  match bus, message, source with
  | ServiceBus.Ctl, BusMsg.Ctl msg, source =>
    match rt.handle_ctl caps ep logs source msg with
    | .ok rt1 ep1 logs1 => .ok rt1 ep1 logs1
    | .err e rt1 ep1 logs1 =>
      match send_to caps ep1 ServiceBus.Ctl rt1.identity source
          (BusMsg.Ctl (CtlMsg.with_error source msg e)) with
      | .error e2 => .err e2 rt1 ep1 logs1
      | .ok ep2 => .err e rt1 ep2 logs1
    | .panicked => .panicked
  | bus, msg, _ => .err (Error.wrongEsbMsgBus bus msg) rt ep logs

/-- The transport error type of the ESB layer, abstracted. -/
structure EsbFailure where
  code : Nat
deriving DecidableEq

/-- Runtime handle err: the outermost error boundary.  It ignores the
transport error and returns success, leaving state and endpoints
untouched, so a delivery failure never terminates the hosting process. -/
def Runtime.handle_err (rt : Runtime) (ep : List SentMsg)
    (_e : EsbFailure) : Runtime × List SentMsg × Except Error Unit :=
  (rt, ep, Except.ok ())

/- Concrete fixtures used by witness theorems. -/

/-- A sample extended private key. -/
def sampleXpriv : ExtendedPrivKey := { bytes := List.replicate 78 1 }

/-- A sample signing account. -/
def sampleAccount : MemorySigningAccount :=
  { master_id := List.replicate 20 2, derivation := [],
    xpriv := sampleXpriv, fingerprint := 7 }

/-- A provider holding exactly the sample account. -/
def sampleProvider : MemoryKeyProvider :=
  { accounts := [sampleAccount], use_musig := true }

/-- The mainnet chain. -/
def mainnetChain : Chain := { params := { is_testnet := false } }

/-- The testnet chain. -/
def testnetChain : Chain := { params := { is_testnet := true } }

/-- A mainnet runtime with the sample provider. -/
def rtMain : Runtime := { chain := mainnetChain, provider := sampleProvider }

/-- A testnet runtime with the sample provider. -/
def rtTest : Runtime := { chain := testnetChain, provider := sampleProvider }

/-- A mainnet runtime whose provider holds no account. -/
def rtEmpty : Runtime :=
  { chain := mainnetChain, provider := { accounts := [], use_musig := true } }

/-- A channel id whose first four bytes are 0, 0, 0, n. -/
def idSlice (n : Nat) : Slice32 := { inner := [0, 0, 0, n] ++ List.replicate 28 0 }

/-- A sample PSBT. -/
def psbt0 : Psbt := { bytes := [9, 9] }

/-- Capabilities where every external step succeeds. -/
def okCaps : Caps :=
  { open_file := Except.ok []
  , decode_xpub_id := fun s => Except.ok (List.replicate 20 2, s)
  , decode_derivation_path := fun s => Except.ok ([], s)
  , decode_xpriv := fun s => Except.ok (sampleXpriv, s)
  , fingerprint_of := fun _ => 7
  , sign_all := fun p _ => Except.ok (p, 2)
  , derive_priv := fun k path => Except.ok { bytes := k.bytes ++ [path.length] }
  , to_txid := fun p => p.bytes.length
  , send := fun _ => none }

/-- Capabilities where signing fails. -/
def failSignCaps : Caps :=
  { okCaps with sign_all := fun _ _ => Except.error (Error.sign 9) }

/-- Capabilities where the key file cannot be opened. -/
def failOpenCaps : Caps :=
  { okCaps with open_file := Except.error (Error.io 3) }

/- Helper lemmas shared across the claim theorems. -/

/-- The masked channel index always fits in 31 bits. -/
theorem channel_index_lt (c : Slice32) : Runtime.channel_index c < 2 ^ 31 :=
  Nat.lt_of_le_of_lt Nat.and_le_right (by norm_num)

/-- The chain index is 0 or 1, hence below the hardened bound. -/
theorem chain_index_lt (rt : Runtime) : rt.chain_index < 2 ^ 31 := by
  unfold Runtime.chain_index
  split <;> norm_num

/-- The derivation path the handler builds is always the four hardened
components chain index, 1, 0, channel index. -/
theorem derive_path_eq (rt : Runtime) (c : Slice32) :
    rt.derive_path c =
      some [ChildNumber.hardened rt.chain_index, ChildNumber.hardened 1,
        ChildNumber.hardened 0,
        ChildNumber.hardened (Runtime.channel_index c)] := by
  have h1 := channel_index_lt c
  have h2 := chain_index_lt rt
  norm_num at h1 h2
  simp [Runtime.derive_path, List.mapM, List.mapM.loop,
    ChildNumber.from_hardened_idx, h1, h2]

/-- Dropping the length of the left part of an append leaves the right
part. -/
theorem drop_len_append (l m : List SentMsg) : (l ++ m).drop l.length = m := by
  simp [List.drop_append]

/-- C3: for every channel identifier the channel index computed by the
DeriveKeyset handler satisfies 0 ≤ channelIndex < 2 ^ 31, so it is
representable as a hardened BIP32 child index. -/
theorem claim3_channel_index_range (c : Slice32) :
    0 ≤ Runtime.channel_index c ∧ Runtime.channel_index c < 2 ^ 31 :=
  ⟨Nat.zero_le _, channel_index_lt c⟩

/-- C10: the expect panic in path construction is unreachable: for every
runtime and channel identifier the path builds successfully (every
component is below 2 ^ 31), and the DeriveKeyset handler never reaches
the panicked outcome: it always returns with the runtime state intact. -/
theorem claim10_no_panic (rt : Runtime) (c : Slice32) :
    rt.derive_path c =
      some [ChildNumber.hardened rt.chain_index, ChildNumber.hardened 1,
        ChildNumber.hardened 0,
        ChildNumber.hardened (Runtime.channel_index c)] ∧
    ∀ (caps : Caps) (ep : List SentMsg) (logs : List (Nat × Nat))
      (source : ServiceId),
      (rt.handle_ctl caps ep logs source
        (CtlMsg.DeriveKeyset c)).runtimeOf = some rt := by
  refine ⟨derive_path_eq rt c, ?_⟩
  intro caps ep logs source
  simp only [Runtime.handle_ctl]
  cases ha : rt.provider.accounts.head? with
  | none => simp [Outcome.runtimeOf]
  | some account =>
    rw [derive_path_eq]
    cases hd : caps.derive_priv account.account_xpriv
        [ChildNumber.hardened rt.chain_index, ChildNumber.hardened 1,
          ChildNumber.hardened 0,
          ChildNumber.hardened (Runtime.channel_index c)] with
    | error e => simp [hd, Outcome.runtimeOf]
    | ok xk =>
      simp only [hd, send_to]
      cases hs : caps.send _ with
      | none => simp [Outcome.runtimeOf]
      | some e => simp [Outcome.runtimeOf]

/-- C1: the DeriveKeyset handler computes channelIndex as the big-endian
32-bit value of the first 4 identifier bytes masked with 0x7FFFFFFF, and
builds the all-hardened path chain index, 1, 0, channel index with chain
index 1 on testnet and 0 otherwise; an identifier whose first four bytes
are 0, 0, 0, 5 yields channel index 5, hence hardened path components
0, 1, 0, 5 on mainnet and 1, 1, 0, 5 on testnet. -/
theorem claim1_derive_keyset_path (rt : Runtime) (c : Slice32) :
    rt.derive_path c =
      some [ChildNumber.hardened
          (if rt.chain.chain_params.is_testnet then 1 else 0),
        ChildNumber.hardened 1, ChildNumber.hardened 0,
        ChildNumber.hardened
          (u32_from_be_bytes (c.inner.take 4) &&& 0x7FFFFFFF)] ∧
    (c.inner.take 4 = [0, 0, 0, 5] → Runtime.channel_index c = 5) := by
  constructor
  · simpa [Runtime.chain_index, Runtime.channel_index] using derive_path_eq rt c
  · intro h4
    unfold Runtime.channel_index
    rw [h4]
    decide

/-- Witness for C1: on the identifier with first four bytes 0, 0, 0, 5
the mainnet runtime builds the hardened path 0, 1, 0, 5, the testnet
runtime builds the hardened path 1, 1, 0, 5, and the channel index is
5. -/
theorem claim1_derive_keyset_path_witness :
    rtMain.derive_path (idSlice 5) =
      some [ChildNumber.hardened 0, ChildNumber.hardened 1,
        ChildNumber.hardened 0, ChildNumber.hardened 5] ∧
    rtTest.derive_path (idSlice 5) =
      some [ChildNumber.hardened 1, ChildNumber.hardened 1,
        ChildNumber.hardened 0, ChildNumber.hardened 5] ∧
    Runtime.channel_index (idSlice 5) = 5 := by
  have hm := claim1_derive_keyset_path rtMain (idSlice 5)
  have ht := claim1_derive_keyset_path rtTest (idSlice 5)
  have h4 : (idSlice 5).inner.take 4 = [0, 0, 0, 5] := by decide
  refine ⟨?_, ?_, hm.2 h4⟩
  · rw [hm.1]
    decide
  · rw [ht.1]
    decide

/-- C2: keyset derivation is deterministic and effect-free on the
runtime state: handling DeriveKeyset never changes the runtime, and two
handlings of the same identifier over the same runtime and capabilities
deliver identical keysets (hence equal fingerprint, path and derived
key), whatever endpoint and log context each starts from. -/
theorem claim2_derive_deterministic (caps : Caps) (rt : Runtime)
    (ep1 ep2 : List SentMsg) (logs1 logs2 : List (Nat × Nat))
    (source : ServiceId) (c : Slice32) :
    (rt.handle_ctl caps ep1 logs1 source (CtlMsg.DeriveKeyset c)).runtimeOf
        = some rt ∧
    (rt.handle_ctl caps ep1 logs1 source (CtlMsg.DeriveKeyset c)).keysets ep1
      = (rt.handle_ctl caps ep2 logs2 source (CtlMsg.DeriveKeyset c)).keysets
          ep2 := by
  simp only [Runtime.handle_ctl]
  cases ha : rt.provider.accounts.head? with
  | none =>
    simp [Outcome.runtimeOf, Outcome.keysets, Outcome.newMsgs,
      Outcome.sentOf, List.drop_length]
  | some account =>
    rw [derive_path_eq]
    cases hd : caps.derive_priv account.account_xpriv
        [ChildNumber.hardened rt.chain_index, ChildNumber.hardened 1,
          ChildNumber.hardened 0,
          ChildNumber.hardened (Runtime.channel_index c)] with
    | error e =>
      simp [hd, Outcome.runtimeOf, Outcome.keysets, Outcome.newMsgs,
        Outcome.sentOf, List.drop_length]
    | ok xk =>
      simp only [hd, send_to]
      cases hs : caps.send _ with
      | none =>
        simp [Outcome.runtimeOf, Outcome.keysets, Outcome.newMsgs,
          Outcome.sentOf, drop_len_append]
      | some e =>
        simp [Outcome.runtimeOf, Outcome.keysets, Outcome.newMsgs,
          Outcome.sentOf, List.drop_length]

/-- C5: a DeriveKeyset request received while the provider holds no
signing account produces no message at all and returns success, both at
the dispatch level and at the outer handler level. -/
theorem claim5_no_account_silent (caps : Caps) (rt : Runtime)
    (ep : List SentMsg) (logs : List (Nat × Nat)) (source : ServiceId)
    (c : Slice32) (h : rt.provider.accounts = []) :
    rt.handle_ctl caps ep logs source (CtlMsg.DeriveKeyset c) =
      Outcome.ok rt ep logs ∧
    rt.handle caps ep logs ServiceBus.Ctl source
      (BusMsg.Ctl (CtlMsg.DeriveKeyset c)) = Outcome.ok rt ep logs := by
  have h1 : rt.handle_ctl caps ep logs source (CtlMsg.DeriveKeyset c) =
      Outcome.ok rt ep logs := by
    simp [Runtime.handle_ctl, h]
  exact ⟨h1, by simp [Runtime.handle, h1]⟩

/-- Witness for C5: the empty-provider runtime answers DeriveKeyset with
success and no delivered message. -/
theorem claim5_no_account_silent_witness :
    rtEmpty.handle_ctl okCaps [] [] (ServiceId.otherService 1)
      (CtlMsg.DeriveKeyset (idSlice 5)) = Outcome.ok rtEmpty [] [] ∧
    rtEmpty.handle okCaps [] [] ServiceBus.Ctl (ServiceId.otherService 1)
      (BusMsg.Ctl (CtlMsg.DeriveKeyset (idSlice 5))) =
      Outcome.ok rtEmpty [] [] :=
  claim5_no_account_silent okCaps rtEmpty [] [] (ServiceId.otherService 1)
    (idSlice 5) rfl

/-- C7: the transport-error boundary never escalates: for every runtime
state and transport error, handle err leaves the state and the endpoint
list untouched and returns success. -/
theorem claim7_transport_error_swallowed (rt : Runtime) (ep : List SentMsg)
    (e : EsbFailure) :
    Runtime.handle_err rt ep e = (rt, ep, Except.ok ()) := rfl

/-- C9: handling Sign leaves the runtime state (provider and chain)
unchanged in every case, and on success its only effects are the Signed
response to the origin and the (txid, signature count) report. -/
theorem claim9_sign_frame (caps : Caps) (rt : Runtime) (ep : List SentMsg)
    (logs : List (Nat × Nat)) (source : ServiceId) (psbt : Psbt) :
    (rt.handle_ctl caps ep logs source (CtlMsg.Sign psbt)).runtimeOf
        = some rt ∧
    (∀ psbt2 n, caps.sign_all psbt rt.provider = Except.ok (psbt2, n) →
      caps.send (SentMsg.mk ServiceBus.Ctl ServiceId.Signer source
        (BusMsg.Ctl (CtlMsg.Signed psbt2))) = none →
      rt.handle_ctl caps ep logs source (CtlMsg.Sign psbt) =
        Outcome.ok rt
          (ep ++ [SentMsg.mk ServiceBus.Ctl ServiceId.Signer source
            (BusMsg.Ctl (CtlMsg.Signed psbt2))])
          (logs ++ [(caps.to_txid psbt2, n)])) := by
  constructor
  · simp only [Runtime.handle_ctl]
    cases hsg : caps.sign_all psbt rt.provider with
    | error e => simp [Outcome.runtimeOf]
    | ok pr =>
      obtain ⟨p2, n⟩ := pr
      simp only [send_to]
      cases hs : caps.send _ with
      | none => simp [Outcome.runtimeOf]
      | some e => simp [Outcome.runtimeOf]
  · intro psbt2 n hsg hsend
    simp [Runtime.handle_ctl, hsg, send_to, hsend]

/-- Witness for C9: with all-succeeding capabilities, signing the sample
PSBT keeps the runtime, delivers exactly the Signed response and logs
the txid and signature count. -/
theorem claim9_sign_frame_witness :
    rtMain.handle_ctl okCaps [] [] (ServiceId.otherService 1)
      (CtlMsg.Sign psbt0) =
      Outcome.ok rtMain
        [SentMsg.mk ServiceBus.Ctl ServiceId.Signer (ServiceId.otherService 1)
          (BusMsg.Ctl (CtlMsg.Signed psbt0))] [(2, 2)] :=
  (claim9_sign_frame okCaps rtMain [] [] (ServiceId.otherService 1) psbt0).2
    psbt0 2 rfl rfl

/-- C4: any control message other than Sign or DeriveKeyset is rejected
by the dispatch with exactly the unsupported-message error and no
delivered message; at the outer handler no Signed or Keyset response is
ever delivered for it, and when the error echo is deliverable the
unsupported-message error is what the handler returns. -/
theorem claim4_unsupported_msg (caps : Caps) (rt : Runtime)
    (ep : List SentMsg) (logs : List (Nat × Nat)) (source : ServiceId)
    (m : CtlMsg) (hs : ∀ p, m ≠ CtlMsg.Sign p)
    (hd : ∀ c, m ≠ CtlMsg.DeriveKeyset c) :
    rt.handle_ctl caps ep logs source m =
      Outcome.err (Error.wrongEsbMsgCtl ServiceBus.Ctl m) rt ep logs ∧
    (rt.handle caps ep logs ServiceBus.Ctl source (BusMsg.Ctl m)).responses
      ep = [] ∧
    (caps.send (SentMsg.mk ServiceBus.Ctl ServiceId.Signer source
        (BusMsg.Ctl (CtlMsg.with_error source m
          (Error.wrongEsbMsgCtl ServiceBus.Ctl m)))) = none →
      rt.handle caps ep logs ServiceBus.Ctl source (BusMsg.Ctl m) =
        Outcome.err (Error.wrongEsbMsgCtl ServiceBus.Ctl m) rt
          (ep ++ [SentMsg.mk ServiceBus.Ctl ServiceId.Signer source
            (BusMsg.Ctl (CtlMsg.with_error source m
              (Error.wrongEsbMsgCtl ServiceBus.Ctl m)))]) logs) := by
  have h1 : rt.handle_ctl caps ep logs source m =
      Outcome.err (Error.wrongEsbMsgCtl ServiceBus.Ctl m) rt ep logs := by
    cases m with
    | Sign p => exact absurd rfl (hs p)
    | DeriveKeyset c => exact absurd rfl (hd c)
    | Signed p => simp [Runtime.handle_ctl]
    | Keyset d k => simp [Runtime.handle_ctl]
    | ErrorEcho d r e => simp [Runtime.handle_ctl]
    | otherCtl t => simp [Runtime.handle_ctl]
  refine ⟨h1, ?_, ?_⟩
  · simp only [Runtime.handle, h1, send_to, Runtime.identity]
    cases hsend : caps.send (SentMsg.mk ServiceBus.Ctl ServiceId.Signer source
        (BusMsg.Ctl (CtlMsg.with_error source m
          (Error.wrongEsbMsgCtl ServiceBus.Ctl m)))) with
    | none =>
      simp [Outcome.responses, Outcome.newMsgs, Outcome.sentOf,
        drop_len_append, CtlMsg.with_error]
    | some e =>
      simp [Outcome.responses, Outcome.newMsgs, Outcome.sentOf,
        List.drop_length]
  · intro hsend
    simp [Runtime.handle, h1, send_to, Runtime.identity, hsend]

/-- Witness for C4: an unrelated control message is rejected with the
unsupported-message error, no Signed or Keyset response is delivered,
and the same error is returned after the echo delivery. -/
theorem claim4_unsupported_msg_witness :
    rtMain.handle_ctl okCaps [] [] (ServiceId.otherService 1)
      (CtlMsg.otherCtl 0) =
      Outcome.err (Error.wrongEsbMsgCtl ServiceBus.Ctl (CtlMsg.otherCtl 0))
        rtMain [] [] ∧
    (rtMain.handle okCaps [] [] ServiceBus.Ctl (ServiceId.otherService 1)
      (BusMsg.Ctl (CtlMsg.otherCtl 0))).responses [] = [] ∧
    rtMain.handle okCaps [] [] ServiceBus.Ctl (ServiceId.otherService 1)
      (BusMsg.Ctl (CtlMsg.otherCtl 0)) =
      Outcome.err (Error.wrongEsbMsgCtl ServiceBus.Ctl (CtlMsg.otherCtl 0))
        rtMain
        [SentMsg.mk ServiceBus.Ctl ServiceId.Signer (ServiceId.otherService 1)
          (BusMsg.Ctl (CtlMsg.with_error (ServiceId.otherService 1)
            (CtlMsg.otherCtl 0)
            (Error.wrongEsbMsgCtl ServiceBus.Ctl (CtlMsg.otherCtl 0))))]
        [] := by
  have h := claim4_unsupported_msg okCaps rtMain [] []
    (ServiceId.otherService 1) (CtlMsg.otherCtl 0)
    (fun p hc => CtlMsg.noConfusion hc) (fun c hc => CtlMsg.noConfusion hc)
  exact ⟨h.1, h.2.1, h.2.2 rfl⟩

/-- C6: on a Sign request whose signing step fails the handler delivers
the error-wrapped echo of the original request back to the origin and
returns the same error; on success it delivers Signed to the origin and
returns success. -/
theorem claim6_sign_error_echo (caps : Caps) (rt : Runtime)
    (ep : List SentMsg) (logs : List (Nat × Nat)) (source : ServiceId)
    (psbt : Psbt) :
    (∀ e, caps.sign_all psbt rt.provider = Except.error e →
      caps.send (SentMsg.mk ServiceBus.Ctl ServiceId.Signer source
        (BusMsg.Ctl (CtlMsg.with_error source (CtlMsg.Sign psbt) e)))
          = none →
      rt.handle caps ep logs ServiceBus.Ctl source
          (BusMsg.Ctl (CtlMsg.Sign psbt)) =
        Outcome.err e rt
          (ep ++ [SentMsg.mk ServiceBus.Ctl ServiceId.Signer source
            (BusMsg.Ctl (CtlMsg.with_error source (CtlMsg.Sign psbt) e))])
          logs) ∧
    (∀ psbt2 n, caps.sign_all psbt rt.provider = Except.ok (psbt2, n) →
      caps.send (SentMsg.mk ServiceBus.Ctl ServiceId.Signer source
        (BusMsg.Ctl (CtlMsg.Signed psbt2))) = none →
      rt.handle caps ep logs ServiceBus.Ctl source
          (BusMsg.Ctl (CtlMsg.Sign psbt)) =
        Outcome.ok rt
          (ep ++ [SentMsg.mk ServiceBus.Ctl ServiceId.Signer source
            (BusMsg.Ctl (CtlMsg.Signed psbt2))])
          (logs ++ [(caps.to_txid psbt2, n)])) := by
  constructor
  · intro e hsg hsend
    simp [Runtime.handle, Runtime.handle_ctl, hsg, send_to, hsend,
      Runtime.identity]
  · intro psbt2 n hsg hsend
    simp [Runtime.handle, Runtime.handle_ctl, hsg, send_to, hsend]

/-- Witness for C6: with a failing signer, the handler delivers the
error-wrapped echo of the Sign request and returns the signing error. -/
theorem claim6_sign_error_echo_witness :
    rtMain.handle failSignCaps [] [] ServiceBus.Ctl (ServiceId.otherService 1)
      (BusMsg.Ctl (CtlMsg.Sign psbt0)) =
      Outcome.err (Error.sign 9) rtMain
        [SentMsg.mk ServiceBus.Ctl ServiceId.Signer (ServiceId.otherService 1)
          (BusMsg.Ctl (CtlMsg.with_error (ServiceId.otherService 1)
            (CtlMsg.Sign psbt0) (Error.sign 9)))] [] :=
  (claim6_sign_error_echo failSignCaps rtMain [] [] (ServiceId.otherService 1)
    psbt0).1 (Error.sign 9) rfl rfl

/-- C8: construction reads the identifying hash, then the derivation
path, then the extended private key, in that fixed order; any failing
step fails the whole construction with that error, and a successful
construction yields a runtime whose provider holds exactly the one fully
decoded signing account. -/
theorem claim8_construction_atomic (caps : Caps) (chain : Chain) :
    (∀ e, Runtime.loadProvider caps = Except.error e →
      Runtime.with caps chain = Except.error e) ∧
    (∀ e, caps.open_file = Except.error e →
      Runtime.with caps chain = Except.error e) ∧
    (∀ content e, caps.open_file = Except.ok content →
      caps.decode_xpub_id content = Except.error e →
      Runtime.with caps chain = Except.error e) ∧
    (∀ content mid r1 e, caps.open_file = Except.ok content →
      caps.decode_xpub_id content = Except.ok (mid, r1) →
      caps.decode_derivation_path r1 = Except.error e →
      Runtime.with caps chain = Except.error e) ∧
    (∀ content mid r1 dp r2 e, caps.open_file = Except.ok content →
      caps.decode_xpub_id content = Except.ok (mid, r1) →
      caps.decode_derivation_path r1 = Except.ok (dp, r2) →
      caps.decode_xpriv r2 = Except.error e →
      Runtime.with caps chain = Except.error e) ∧
    (∀ rt, Runtime.with caps chain = Except.ok rt →
      ∃ content mid r1 dp r2 xp r3,
        caps.open_file = Except.ok content ∧
        caps.decode_xpub_id content = Except.ok (mid, r1) ∧
        caps.decode_derivation_path r1 = Except.ok (dp, r2) ∧
        caps.decode_xpriv r2 = Except.ok (xp, r3) ∧
        rt = Runtime.mk chain
          (MemoryKeyProvider.mk
            [MemorySigningAccount.with caps mid dp xp] true)) := by
  refine ⟨?_, ?_, ?_, ?_, ?_, ?_⟩
  · intro e h
    simp [Runtime.with, h, bind, Except.bind]
  · intro e h
    simp [Runtime.with, Runtime.loadProvider, h, bind, Except.bind]
  · intro content e h1 h2
    simp [Runtime.with, Runtime.loadProvider, h1, h2, bind, Except.bind]
  · intro content mid r1 e h1 h2 h3
    simp [Runtime.with, Runtime.loadProvider, h1, h2, h3, bind, Except.bind]
  · intro content mid r1 dp r2 e h1 h2 h3 h4
    simp [Runtime.with, Runtime.loadProvider, h1, h2, h3, h4, bind,
      Except.bind]
  · intro rt h
    cases h1 : caps.open_file with
    | error e =>
      simp [Runtime.with, Runtime.loadProvider, h1, bind, Except.bind] at h
    | ok content =>
      cases h2 : caps.decode_xpub_id content with
      | error e =>
        simp [Runtime.with, Runtime.loadProvider, h1, h2, bind,
          Except.bind] at h
      | ok pr1 =>
        obtain ⟨mid, r1⟩ := pr1
        cases h3 : caps.decode_derivation_path r1 with
        | error e =>
          simp [Runtime.with, Runtime.loadProvider, h1, h2, h3, bind,
            Except.bind] at h
        | ok pr2 =>
          obtain ⟨dp, r2⟩ := pr2
          cases h4 : caps.decode_xpriv r2 with
          | error e =>
            simp [Runtime.with, Runtime.loadProvider, h1, h2, h3, h4, bind,
              Except.bind] at h
          | ok pr3 =>
            obtain ⟨xp, r3⟩ := pr3
            refine ⟨content, mid, r1, dp, r2, xp, r3, rfl, h2, h3, h4, ?_⟩
            simp [Runtime.with, Runtime.loadProvider, h1, h2, h3, h4, bind,
              Except.bind, pure, Except.pure, MemoryKeyProvider.withFlag,
              MemoryKeyProvider.add_account] at h
            exact h.symm

/-- Witness for C8: a runtime constructed against an unreadable key file
fails construction with the I/O error. -/
theorem claim8_construction_atomic_witness :
    Runtime.with failOpenCaps mainnetChain = Except.error (Error.io 3) :=
  (claim8_construction_atomic failOpenCaps mainnetChain).2.1 (Error.io 3) rfl

end LnpSignd
